import Mathlib

/-!
Shallow embedding of the book-search logic of `my-library-app`:
the Google Books and Open Library service adapters
(`src/apps/web/app/services/book-service.ts`), the auth service
(`auth-service.ts`), and the pagination / enabled gates of the search
hooks (`use-book-search.ts`, `use-infinite-book-search.ts`,
`use-infinite-books-by-title.ts`).

JavaScript values are embedded as follows: `string` as `String`,
optional fields as `Option`, integer fields that the schemas package
(`src/packages/schemas`) constrains to non-negative as `Nat` and plain
`int` fields as `Int`, JS `Error` objects by their message string, and
fallible async operations by an explicit outcome argument.  The
schemas package source carries a Google Books variant document and an
Open Library variant document of its zod schemas; each adapter is
embedded against its own variant's types.
-/

namespace MyLibraryApp

/-- A value thrown by JS code: either an `Error` object (carrying a
message) or an arbitrary non-`Error` value. -/
inductive JsThrown where
  | errorObj (message : String)
  | nonErrorValue
deriving Repr, DecidableEq

/-- Embeds `catch (error) { ... error instanceof Error ? error : new Error(fallback) }`:
the message of the `Error` produced by the catch-all branches of the
services. -/
def jsCatchMessage (t : JsThrown) (fallback : String) : String :=
  match t with
  | .errorObj m => m
  | .nonErrorValue => fallback

/-- The `Result` union both services return:
`{ ok: true, value } | { ok: false, error }`, with the `Error` object
represented by its message. -/
inductive Result (α : Type) where
  | ok (value : α)
  | error (message : String)
deriving Repr, DecidableEq

/-- Property that `r` is one of the two variants of the result/error union. -/
def resultShape {α : Type} (r : Result α) : Prop :=
  (∃ v, r = .ok v) ∨ (∃ m, r = .error m)

/-- Outcome of `zod`'s `schema.safeParse(rawData)`.  The response
schemas' data shapes are embedded below from the schemas package
source; zod's own parsing runtime is an external library, and the
claims condition only on whether validation succeeded, so `safeParse`
is an explicit argument of the service embeddings (the services only
branch on `success` and read `error.message`). -/
inductive ZodParse (α : Type) where
  | success (data : α)
  | failure (message : String)
deriving Repr, DecidableEq

/-- Outcome of `await fetch(url)` followed by `await response.json()`:
the awaits threw, the response was not `ok`, or a raw body was obtained. -/
inductive FetchOutcome where
  | throws (thrown : JsThrown)
  | httpError (status : Nat) (statusText : String)
  | body (raw : String)
deriving Repr, DecidableEq

/-- JS string-or-default `a || b`: `undefined` and the empty string are
falsy. -/
def jsStrOr (a : Option String) (b : String) : String :=
  match a with
  | some s => if s = "" then b else s
  | none => b

/-! ### Data shapes of the `@my-library-app/schemas` package

The schemas package source (under `src/packages/schemas`) contains two
variant documents of its zod schemas: a Google Books variant and an
Open Library variant.  The validated data shapes below are embedded
from that source.  zod itself is an external library, so its runtime
refinements (`min`, `positive`, `max`, `url`) do not change the
inferred TypeScript field types; where a refinement constrains values
it is embedded as an explicit validity predicate next to the shape.
Integer fields that the schemas declare `nonnegative` are embedded as
`Nat`; plain `int` fields as `Int`. -/

/-- Embeds `industryIdentifierSchema` of the schemas package (ISBN,
ISSN, etc.): `type: z.string(), identifier: z.string()` (identical in
both variant documents). -/
structure IndustryIdentifier where
  type : String
  identifier : String
deriving Repr, DecidableEq

/-- Embeds `imageLinksSchema` of the schemas package:
`thumbnail: z.string().url().optional(), smallThumbnail:
z.string().url().optional()` (identical in both variant documents; the
`url()` refinement constrains values at parse time, not the field
type). -/
structure ImageLinks where
  thumbnail : Option String := none
  smallThumbnail : Option String := none
deriving Repr, DecidableEq

/-- Embeds `volumeInfoSchema` of the schemas package, Google Books
variant document: required `title`; optional `subtitle`, `authors`,
`publisher`, `publishedDate`, `description`, `pageCount`
(nonnegative int), `categories`, `imageLinks`, `language`,
`previewLink`, `infoLink`, `industryIdentifiers`.  The Open Library
variant document declares a narrower `volumeInfoSchema` (no
`subtitle`, required `publishedDate`); the Open Library adapter's
transform populates `subtitle` and may leave `publishedDate` absent,
so its output inhabits this wider shape, which is the one embedded. -/
structure VolumeInfo where
  title : String
  subtitle : Option String := none
  authors : Option (List String) := none
  publisher : Option String := none
  publishedDate : Option String := none
  description : Option String := none
  pageCount : Option Nat := none
  categories : Option (List String) := none
  imageLinks : Option ImageLinks := none
  language : Option String := none
  previewLink : Option String := none
  infoLink : Option String := none
  industryIdentifiers : Option (List IndustryIdentifier) := none
deriving Repr, DecidableEq

/-- Embeds `volumeSchema` of the schemas package: required `id`,
`volumeInfo` and `selfLink` (`z.string().url()`; the `url()`
refinement constrains values at parse time, not the field type). -/
structure Volume where
  id : String
  volumeInfo : VolumeInfo
  selfLink : String
deriving Repr, DecidableEq

/-- Embeds `volumeSearchResponseSchema` of the schemas package:
`kind: z.string(), totalItems: z.number().int().nonnegative(),
items: z.array(volumeSchema).optional()` (identical in both variant
documents). -/
structure VolumeSearchResponse where
  kind : String
  totalItems : Nat
  items : Option (List Volume) := none
deriving Repr, DecidableEq

/-- Embeds `openLibraryDocSchema` of the schemas package (Open Library
variant document): required `key`; every other field optional.
`cover_i` is `z.number().int()` with no sign constraint, hence `Int`;
`first_publish_year` and the `publish_year` entries likewise;
`edition_count` and `number_of_pages_median` are `nonnegative`. -/
structure OpenLibraryDoc where
  key : String
  title : Option String := none
  subtitle : Option String := none
  author_name : Option (List String) := none
  author_key : Option (List String) := none
  first_publish_year : Option Int := none
  isbn : Option (List String) := none
  cover_i : Option Int := none
  cover_edition_key : Option String := none
  subject : Option (List String) := none
  publisher : Option (List String) := none
  publish_year : Option (List Int) := none
  language : Option (List String) := none
  edition_count : Option Nat := none
  number_of_pages_median : Option Nat := none
  has_fulltext : Option Bool := none
  public_scan_b : Option Bool := none
deriving Repr, DecidableEq

/-- Embeds `openLibrarySearchResponseSchema` of the schemas package:
`numFound: z.number().int().nonnegative(), start:
z.number().int().nonnegative(), docs: z.array(openLibraryDocSchema)`. -/
structure OpenLibrarySearchResponse where
  numFound : Nat
  start : Nat
  docs : List OpenLibraryDoc
deriving Repr, DecidableEq

/-! ### Open Library adapter (`book-service.ts`, Open Library variant) -/

namespace OpenLibrary

/-- Embeds `searchFieldSchema` of the schemas package, Open Library
variant document: `z.enum(["title", "author", "publisher", "subject",
"isbn"])` — matching this adapter's `SEARCH_FIELDS` constants. -/
inductive SearchField where
  | title | author | publisher | subject | isbn
deriving Repr, DecidableEq

/-- The string value of an Open Library search field keyword. -/
def SearchField.str : SearchField → String
  | .title => "title"
  | .author => "author"
  | .publisher => "publisher"
  | .subject => "subject"
  | .isbn => "isbn"

/-- Embeds `searchSortSchema` of the schemas package, Open Library
variant document: `z.enum(["relevance", "new", "old", "random"])`. -/
inductive SearchSort where
  | relevance | new | old | random
deriving Repr, DecidableEq

/-- Embeds `searchOptionsSchema` of the schemas package, Open Library
variant document: required `query`, optional `field`, `sort`,
`maxResults`, `startIndex`.  The zod refinements (`query` nonempty,
`maxResults` positive and at most 40) are value constraints checked
only by `searchOptionsSchema.parse`, which the service code never
invokes on its input; they are embedded as `searchOptionsSchemaValid`
below. -/
structure SearchOptions where
  query : String
  field : Option SearchField := none
  sort : Option SearchSort := none
  maxResults : Option Nat := none
  startIndex : Option Nat := none
deriving Repr, DecidableEq

/-- Embeds the refinements of the Open Library variant
`searchOptionsSchema`: `query: z.string().min(1)` and `maxResults:
z.number().int().positive().max(40)` (`startIndex` being `Nat` already
covers `nonnegative`). -/
def searchOptionsSchemaValid (options : SearchOptions) : Bool :=
  (1 ≤ options.query.length) &&
  (match options.maxResults with
    | some n => (0 < n) && (n ≤ 40)
    | none => true)

/-- Embeds `buildSearchQuery`: query string with optional `field:value`
specifier.  `if (field)` tests JS truthiness of the field string, so an
empty field string would also fall through to the bare query. -/
def buildSearchQuery (options : SearchOptions) : String :=
  match options.field with
  | some f => if f.str = "" then options.query else f.str ++ ":" ++ options.query
  | none => options.query

/-- The constant `fields` request parameter of the Open Library adapter. -/
def fieldsParam : String :=
  "key,title,subtitle,author_name,author_key,first_publish_year,isbn,cover_i,cover_edition_key,subject,publisher,language,edition_count,number_of_pages_median"

/-- The `URLSearchParams` contents built by the Open Library
`buildApiUrl`: `{ q, fields }` then `limit` / `offset` appended when
`maxResults` / `startIndex` are defined. -/
def buildApiUrlParams (options : SearchOptions) : List (String × String) :=
  let params := [("q", buildSearchQuery options), ("fields", fieldsParam)]
  let params := match options.maxResults with
    | some n => params ++ [("limit", toString n)]
    | none => params
  let params := match options.startIndex with
    | some n => params ++ [("offset", toString n)]
    | none => params
  params

/-- Embeds `getCoverImageUrl`: `if (!coverId) return undefined` — both
`undefined` and `0` are falsy. -/
def getCoverImageUrl (coverId : Option Int) (size : String) : Option String :=
  match coverId with
  | some c =>
    if c = 0 then none
    else some ("https://covers.openlibrary.org/b/id/" ++ toString c ++ "-" ++ size ++ ".jpg")
  | none => none

/-- Embeds `transformOpenLibraryDocToVolume`: maps an Open Library document to
the shared `Volume` shape. -/
def transformOpenLibraryDocToVolume (doc : OpenLibraryDoc) : Volume :=
  let thumbnail := getCoverImageUrl doc.cover_i "M"
  let smallThumbnail := getCoverImageUrl doc.cover_i "S"
  let volumeInfo : VolumeInfo :=
    { title := jsStrOr doc.title "Untitled"
      subtitle := doc.subtitle
      authors := doc.author_name
      publishedDate := doc.first_publish_year.map toString
      categories := doc.subject.map (fun l => l.take 5)
      publisher := doc.publisher.bind List.head?
      language := doc.language.bind List.head?
      pageCount := doc.number_of_pages_median
      imageLinks :=
        if thumbnail.isSome || smallThumbnail.isSome then
          some { thumbnail := thumbnail, smallThumbnail := smallThumbnail }
        else none
      industryIdentifiers :=
        doc.isbn.map (fun l => (l.take 5).map (fun isbn =>
          { type := if isbn.length = 13 then "ISBN_13" else "ISBN_10"
            identifier := isbn })) }
  let id := jsStrOr (doc.key.splitOn "/").getLast? doc.key
  { id := id
    volumeInfo := volumeInfo
    selfLink := "https://openlibrary.org" ++ doc.key }

/-- Embeds `transformOpenLibraryResponse`: Open Library search response to
`VolumeSearchResponse`. -/
def transformOpenLibraryResponse (response : OpenLibrarySearchResponse) : VolumeSearchResponse :=
  { kind := "openlibrary#volumes"
    totalItems := response.numFound
    items := some (response.docs.map transformOpenLibraryDocToVolume) }

end OpenLibrary

/-! ### `URLSearchParams` serialization

`params.toString()` serializes in `application/x-www-form-urlencoded`
format: over the UTF-8 bytes of each key and value, a space becomes
`+`, ASCII alphanumerics and `*-._` stay, every other byte becomes
`%XX` with uppercase hex. -/

/-- Uppercase hexadecimal digit. -/
def hexDigit (n : Nat) : Char :=
  if n < 10 then Char.ofNat (48 + n) else Char.ofNat (55 + n)

/-- Serialize one UTF-8 byte of a form-urlencoded component. -/
def formEncodeByte (b : UInt8) : String :=
  let n := b.toNat
  if n = 32 then "+"
  else if (48 ≤ n ∧ n ≤ 57) ∨ (65 ≤ n ∧ n ≤ 90) ∨ (97 ≤ n ∧ n ≤ 122)
      ∨ n = 42 ∨ n = 45 ∨ n = 46 ∨ n = 95 then
    (Char.ofNat n).toString
  else
    "%" ++ (hexDigit (n / 16)).toString ++ (hexDigit (n % 16)).toString

/-- Form-urlencode a string (key or value). -/
def formEncode (s : String) : String :=
  s.toUTF8.toList.foldl (fun acc b => acc ++ formEncodeByte b) ""

/-- Embeds `URLSearchParams.toString()`: `k=v` pairs joined with `&`. -/
def urlParamsToString (params : List (String × String)) : String :=
  String.intercalate "&" (params.map (fun p => formEncode p.1 ++ "=" ++ formEncode p.2))

/-! ### Google Books adapter (`book-service.ts`, Google Books variant) -/

namespace GoogleBooks

/-- Embeds `searchFieldSchema` of the schemas package, Google Books
variant document: `z.enum(["intitle", "inauthor", "inpublisher",
"subject", "isbn", "lccn", "oclc"])` — matching this adapter's
`SEARCH_FIELDS` constants. -/
inductive SearchField where
  | intitle | inauthor | inpublisher | subject | isbn | lccn | oclc
deriving Repr, DecidableEq

/-- The string value of a Google Books search field keyword. -/
def SearchField.str : SearchField → String
  | .intitle => "intitle"
  | .inauthor => "inauthor"
  | .inpublisher => "inpublisher"
  | .subject => "subject"
  | .isbn => "isbn"
  | .lccn => "lccn"
  | .oclc => "oclc"

/-- Embeds `searchOptionsSchema` of the schemas package, Google Books
variant document: required `query`, optional `field`, `maxResults`,
`startIndex` — this variant declares no `sort` member.  The zod
refinements are value constraints checked only by
`searchOptionsSchema.parse`, which the service code never invokes on
its input; they are embedded as `searchOptionsSchemaValid` below. -/
structure SearchOptions where
  query : String
  field : Option SearchField := none
  maxResults : Option Nat := none
  startIndex : Option Nat := none
deriving Repr, DecidableEq

/-- Embeds the refinements of the Google Books variant
`searchOptionsSchema`: `query: z.string().min(1)` and `maxResults:
z.number().int().positive().max(40)` (`startIndex` being `Nat` already
covers `nonnegative`). -/
def searchOptionsSchemaValid (options : SearchOptions) : Bool :=
  (1 ≤ options.query.length) &&
  (match options.maxResults with
    | some n => (0 < n) && (n ≤ 40)
    | none => true)

/-- Embeds `buildSearchQuery`: query string with optional `field:value`
specifier (same body as the Open Library variant, over this variant's
field enum). -/
def buildSearchQuery (options : SearchOptions) : String :=
  match options.field with
  | some f => if f.str = "" then options.query else f.str ++ ":" ++ options.query
  | none => options.query

/-- The `URLSearchParams` contents built by the Google Books
`buildApiUrl`: `{ q }` then `maxResults` / `startIndex` appended when
they are defined. -/
def buildApiUrlParams (options : SearchOptions) : List (String × String) :=
  let params := [("q", buildSearchQuery options)]
  let params := match options.maxResults with
    | some n => params ++ [("maxResults", toString n)]
    | none => params
  let params := match options.startIndex with
    | some n => params ++ [("startIndex", toString n)]
    | none => params
  params

/-- Embeds `buildApiUrl`: `` `${baseUrl}?${params.toString()}` `` for the
Google Books volumes endpoint. -/
def buildApiUrl (options : SearchOptions) : String :=
  "https://www.googleapis.com/books/v1/volumes" ++ "?" ++
    urlParamsToString (buildApiUrlParams options)

/-- Embeds `searchBooks` (Google Books): fetch → HTTP-status check → Zod
validation, with `try/catch` converting anything thrown into an error
result.  The fetch outcome and the `safeParse` behaviour of the schema
are explicit arguments. -/
def searchBooks (options : SearchOptions) (outcome : FetchOutcome)
    (safeParse : String → ZodParse VolumeSearchResponse) : Result VolumeSearchResponse :=
  let _url := buildApiUrl options
  match outcome with
  | .throws t => .error (jsCatchMessage t "Unknown error occurred while searching books")
  | .httpError status statusText =>
    .error ("API request failed with status " ++ toString status ++ ": " ++ statusText)
  | .body raw =>
    match safeParse raw with
    | .failure m => .error ("Invalid API response: " ++ m)
    | .success data => .ok data

end GoogleBooks

namespace OpenLibrary

/-- Embeds `buildApiUrl`: `` `${baseUrl}?${params.toString()}` `` for the Open
Library search endpoint. -/
def buildApiUrl (options : SearchOptions) : String :=
  "https://openlibrary.org/search.json" ++ "?" ++
    urlParamsToString (buildApiUrlParams options)

/-- Embeds `searchBooks` (Open Library): fetch → HTTP-status check → Zod
validation → transform to the shared shape, with `try/catch` converting
anything thrown into an error result. -/
def searchBooks (options : SearchOptions) (outcome : FetchOutcome)
    (safeParse : String → ZodParse OpenLibrarySearchResponse) : Result VolumeSearchResponse :=
  let _url := buildApiUrl options
  match outcome with
  | .throws t => .error (jsCatchMessage t "Unknown error occurred while searching books")
  | .httpError status statusText =>
    .error ("API request failed with status " ++ toString status ++ ": " ++ statusText)
  | .body raw =>
    match safeParse raw with
    | .failure m => .error ("Invalid API response: " ++ m)
    | .success data => .ok (transformOpenLibraryResponse data)

end OpenLibrary

/-! ### Auth service (`auth-service.ts`)

The Supabase SDK is external; each operation is embedded over an
explicit outcome of the underlying `supabase.auth.*` call (which may
throw, return an error object, or return data), polymorphic in the data
the SDK returns.  `getSupabaseClient()` throws when either environment
variable is missing or empty, and that throw is caught by the
operation's own `try/catch`. -/

namespace AuthService

/-- The two Supabase environment variables read by
`getSupabaseClient`. -/
structure SupabaseEnv where
  url : Option String := none
  key : Option String := none
deriving Repr, DecidableEq

/-- Embeds `!supabaseUrl || !supabaseKey`: missing or empty env vars are
falsy, making `getSupabaseClient` throw. -/
def envMissing (env : SupabaseEnv) : Bool :=
  (match env.url with | some s => s = "" | none => true) ||
  (match env.key with | some s => s = "" | none => true)

/-- Outcome of an awaited `supabase.auth.*` call: it threw, it returned
`{ error }`, or it returned `{ data }`. -/
inductive AuthOutcome (α : Type) where
  | throws (thrown : JsThrown)
  | apiError (message : String)
  | success (data : α)
deriving Repr, DecidableEq

/-- Embeds `buildRedirectUrl`: `redirectTo || window.location.origin + "/"`. -/
def buildRedirectUrl (origin : String) (redirectTo : Option String) : String :=
  jsStrOr redirectTo (origin ++ "/")

/-- Options of `signInWithOAuth`. -/
structure SignInWithOAuthOptions where
  provider : String
  redirectTo : Option String := none
deriving Repr, DecidableEq

/-- Embeds `getSession`: result of `supabase.auth.getSession()` wrapped in the
result/error union. -/
def getSession {α : Type} (env : SupabaseEnv) (outcome : AuthOutcome α) : Result α :=
  if envMissing env then .error "Missing Supabase environment variables"
  else
    match outcome with
    | .throws t => .error (jsCatchMessage t "Unknown error occurred while getting session")
    | .apiError m => .error ("Failed to get session: " ++ m)
    | .success s => .ok s

/-- Embeds `getUser`: result of `supabase.auth.getUser()` wrapped in the
result/error union. -/
def getUser {α : Type} (env : SupabaseEnv) (outcome : AuthOutcome α) : Result α :=
  if envMissing env then .error "Missing Supabase environment variables"
  else
    match outcome with
    | .throws t => .error (jsCatchMessage t "Unknown error occurred while getting user")
    | .apiError m => .error ("Failed to get user: " ++ m)
    | .success u => .ok u

/-- Embeds `signInWithOAuth`: result of `supabase.auth.signInWithOAuth(...)`
wrapped in the result/error union. -/
def signInWithOAuth {α : Type} (env : SupabaseEnv) (origin : String)
    (options : SignInWithOAuthOptions) (outcome : AuthOutcome α) : Result α :=
  if envMissing env then .error "Missing Supabase environment variables"
  else
    let _redirectUrl := buildRedirectUrl origin options.redirectTo
    match outcome with
    | .throws t => .error (jsCatchMessage t "Unknown error occurred while signing in with OAuth")
    | .apiError m => .error ("Failed to sign in with OAuth: " ++ m)
    | .success d => .ok d

/-- Embeds `signOut`: result of `supabase.auth.signOut()` wrapped in the
result/error union. -/
def signOut (env : SupabaseEnv) (outcome : AuthOutcome Unit) : Result Unit :=
  if envMissing env then .error "Missing Supabase environment variables"
  else
    match outcome with
    | .throws t => .error (jsCatchMessage t "Unknown error occurred while signing out")
    | .apiError m => .error ("Failed to sign out: " ++ m)
    | .success _ => .ok ()

end AuthService

/-! ### Search hooks

The hooks hand `queryFn`, `getNextPageParam` and `enabled` to React
Query (`useQuery` / `useInfiniteQuery`).  The callbacks are embedded
from the hook sources; React Query's own documented behaviour (a
disabled query runs no fetch; `useInfiniteQuery` appends each fetched
page to `data.pages`) is modelled separately below. -/

namespace UseBookSearch

/-- The `enabled` gate of `useBookSearch`:
`options.enabled !== false && options.query.length > 0`. -/
def enabledGate (enabledOption : Option Bool) (query : String) : Bool :=
  (match enabledOption with | some false => false | _ => true) && query.length > 0

end UseBookSearch

namespace UseInfiniteBookSearch

/-- The `enabled` gate of `useInfiniteBookSearch`:
`enabled !== false && query.length > 0`. -/
def enabledGate (enabledOption : Option Bool) (query : String) : Bool :=
  (match enabledOption with | some false => false | _ => true) && query.length > 0

/-- Embeds `getNextPageParam` of `useInfiniteBookSearch`: the accumulated item
count across loaded pages is the next `startIndex`, or `undefined` once
it reaches `lastPage.totalItems`. -/
def getNextPageParam (lastPage : VolumeSearchResponse)
    (allPages : List VolumeSearchResponse) : Option Nat :=
  let loadedItems := allPages.foldl (fun acc page => acc + (page.items.getD []).length) 0
  if loadedItems < lastPage.totalItems then some loadedItems else none

end UseInfiniteBookSearch

namespace UseInfiniteBooksByTitle

/-- The `enabled` gate of `useInfiniteBooksByTitle`:
`enabled !== false && title.length > 0`. -/
def enabledGate (enabledOption : Option Bool) (title : String) : Bool :=
  (match enabledOption with | some false => false | _ => true) && title.length > 0

/-- Embeds `getNextPageParam` of `useInfiniteBooksByTitle` (same body as the
`useInfiniteBookSearch` one). -/
def getNextPageParam (lastPage : VolumeSearchResponse)
    (allPages : List VolumeSearchResponse) : Option Nat :=
  let loadedItems := allPages.foldl (fun acc page => acc + (page.items.getD []).length) 0
  if loadedItems < lastPage.totalItems then some loadedItems else none

end UseInfiniteBooksByTitle

/-- Modelled from the spec: React Query never runs the query function
of a disabled query, so the number of network requests a query issues
is `0` while its `enabled` flag is `false`. -/
def requestsIssued (enabled : Bool) (fetchAttempts : Nat) : Nat :=
  if enabled then fetchAttempts else 0

/-- Modelled from the spec: React Query's `useInfiniteQuery` accumulates
pages by appending each newly fetched page to `data.pages`. -/
def fetchNextPageAppend (pages : List VolumeSearchResponse)
    (newPage : VolumeSearchResponse) : List VolumeSearchResponse :=
  pages ++ [newPage]

/-- The dashboard's flattening of loaded pages into one book list:
`data?.pages.flatMap((page) => page.items ?? []) ?? []`. -/
def allBooks (pages : List VolumeSearchResponse) : List Volume :=
  pages.foldr (fun page acc => (page.items.getD []) ++ acc) []

/-- Embeds `deduplicateBooks` (defined in a route module): removes duplicate
books by id, keeping first occurrences, via a `seen` set and `filter`. -/
def deduplicateBooks (books : List Volume) : List Volume :=
  (books.foldl
    (fun (st : List String × List Volume) book =>
      if st.1.contains book.id then st
      else (book.id :: st.1, st.2 ++ [book]))
    ([], [])).2

/-! ### Concrete sample inputs used by witnesses and counterexamples -/

/-- A minimal volume with a given id. -/
def sampleVolume (i : String) : Volume :=
  { id := i, volumeInfo := { title := "Book" }
    selfLink := "https://openlibrary.org/works/" ++ i }

/-- A loaded first page: one item of three total. -/
def samplePage1 : VolumeSearchResponse :=
  { kind := "openlibrary#volumes", totalItems := 3, items := some [sampleVolume "OL1W"] }

/-- A second fetched page repeating the first page's item. -/
def samplePageDup : VolumeSearchResponse :=
  { kind := "openlibrary#volumes", totalItems := 3, items := some [sampleVolume "OL1W"] }

/-- An Open Library document carrying a 13- and a 10-character ISBN. -/
def sampleDocIsbn : OpenLibraryDoc :=
  { key := "/works/OL77W", isbn := some ["9781234567897", "1234567890"] }

/-- An Open Library document carrying a 9-character ISBN. -/
def sampleDocIsbn9 : OpenLibraryDoc :=
  { key := "/works/OL9W", isbn := some ["123456789"] }

/-! ## Theorems -/

/-- Claim C4: in the Open Library adapter's
`transformOpenLibraryDocToVolume`, for every document, an ISBN string
of length 13 is mapped to an industry identifier with type `ISBN_13`,
and an ISBN string of length 10 is mapped to type `ISBN_10`. -/
theorem openLibrary_isbn_classification (doc : OpenLibraryDoc) (ident : IndustryIdentifier)
    (h : ident ∈ ((OpenLibrary.transformOpenLibraryDocToVolume doc).volumeInfo.industryIdentifiers.getD [])) :
    (ident.identifier.length = 13 → ident.type = "ISBN_13") ∧
    (ident.identifier.length = 10 → ident.type = "ISBN_10") := by
  cases hi : doc.isbn with
  | none => simp [OpenLibrary.transformOpenLibraryDocToVolume, hi] at h
  | some l =>
    simp only [OpenLibrary.transformOpenLibraryDocToVolume, hi, Option.map_some',
      Option.getD_some, List.mem_map] at h
    obtain ⟨s, hs, rfl⟩ := h
    constructor
    · intro hl
      simp only at hl
      simp [hl]
    · intro hl
      simp only at hl
      simp only
      rw [if_neg (by omega)]

/-- Witness for C4: the 13-character ISBN of `sampleDocIsbn` is indeed
classified, and classified as `ISBN_13`. -/
theorem openLibrary_isbn_classification_witness :
    (({ type := "ISBN_13", identifier := "9781234567897" } : IndustryIdentifier) ∈
      ((OpenLibrary.transformOpenLibraryDocToVolume sampleDocIsbn).volumeInfo.industryIdentifiers.getD [])) ∧
    ((({ type := "ISBN_13", identifier := "9781234567897" } : IndustryIdentifier).identifier.length = 13 →
        ({ type := "ISBN_13", identifier := "9781234567897" } : IndustryIdentifier).type = "ISBN_13") ∧
      (({ type := "ISBN_13", identifier := "9781234567897" } : IndustryIdentifier).identifier.length = 10 →
        ({ type := "ISBN_13", identifier := "9781234567897" } : IndustryIdentifier).type = "ISBN_10")) :=
  ⟨by decide,
    openLibrary_isbn_classification sampleDocIsbn
      { type := "ISBN_13", identifier := "9781234567897" } (by decide)⟩

/-- Claim C10: in `transformOpenLibraryDocToVolume`, every ISBN string
whose length is not 13 — including lengths other than 10 — is
classified with type `ISBN_10`: it is the fallback for all
non-13-length identifiers. -/
theorem openLibrary_isbn_fallback (doc : OpenLibraryDoc) (ident : IndustryIdentifier)
    (h : ident ∈ ((OpenLibrary.transformOpenLibraryDocToVolume doc).volumeInfo.industryIdentifiers.getD []))
    (hne : ident.identifier.length ≠ 13) : ident.type = "ISBN_10" := by
  cases hi : doc.isbn with
  | none => simp [OpenLibrary.transformOpenLibraryDocToVolume, hi] at h
  | some l =>
    simp only [OpenLibrary.transformOpenLibraryDocToVolume, hi, Option.map_some',
      Option.getD_some, List.mem_map] at h
    obtain ⟨s, hs, rfl⟩ := h
    simp only at hne ⊢
    rw [if_neg hne]

/-- Witness for C10: the 9-character ISBN of `sampleDocIsbn9` is
classified as `ISBN_10`. -/
theorem openLibrary_isbn_fallback_witness :
    (({ type := "ISBN_10", identifier := "123456789" } : IndustryIdentifier) ∈
      ((OpenLibrary.transformOpenLibraryDocToVolume sampleDocIsbn9).volumeInfo.industryIdentifiers.getD [])) ∧
    ({ type := "ISBN_10", identifier := "123456789" } : IndustryIdentifier).identifier.length ≠ 13 ∧
    ({ type := "ISBN_10", identifier := "123456789" } : IndustryIdentifier).type = "ISBN_10" :=
  ⟨by decide, by decide,
    openLibrary_isbn_fallback sampleDocIsbn9
      { type := "ISBN_10", identifier := "123456789" } (by decide) (by decide)⟩

/-- Claim C9: for every Open Library document, the transformed `Volume`
keeps at most the first 5 entries of `doc.subject` as categories and at
most the first 5 entries of `doc.isbn` as industry identifiers; further
subjects or ISBNs are dropped. -/
theorem openLibrary_keeps_first_five (doc : OpenLibraryDoc) :
    (OpenLibrary.transformOpenLibraryDocToVolume doc).volumeInfo.categories
      = doc.subject.map (fun l => l.take 5) ∧
    ((OpenLibrary.transformOpenLibraryDocToVolume doc).volumeInfo.industryIdentifiers.getD []).map
        IndustryIdentifier.identifier = (doc.isbn.getD []).take 5 ∧
    ((OpenLibrary.transformOpenLibraryDocToVolume doc).volumeInfo.categories.getD []).length ≤ 5 ∧
    ((OpenLibrary.transformOpenLibraryDocToVolume doc).volumeInfo.industryIdentifiers.getD []).length ≤ 5 := by
  refine ⟨rfl, ?_, ?_, ?_⟩
  · cases hi : doc.isbn with
    | none => simp [OpenLibrary.transformOpenLibraryDocToVolume, hi]
    | some l =>
      simp only [OpenLibrary.transformOpenLibraryDocToVolume, hi, Option.map_some',
        Option.getD_some]
      rw [List.map_map]
      exact List.map_id _
  · cases hs : doc.subject <;>
      simp [OpenLibrary.transformOpenLibraryDocToVolume, hs, List.length_take]
  · cases hi : doc.isbn <;>
      simp [OpenLibrary.transformOpenLibraryDocToVolume, hi, List.length_take]

/-- Claim C6: for every successfully validated Open Library response,
the transform produces the shared `VolumeSearchResponse` shape: kind
`openlibrary#volumes`, `totalItems` equal to `numFound`, and exactly
one transformed `Volume` per document of `response.docs`, in order. -/
theorem openLibrary_transform_shape (response : OpenLibrarySearchResponse) :
    (OpenLibrary.transformOpenLibraryResponse response).kind = "openlibrary#volumes" ∧
    (OpenLibrary.transformOpenLibraryResponse response).totalItems = response.numFound ∧
    (OpenLibrary.transformOpenLibraryResponse response).items
      = some (response.docs.map OpenLibrary.transformOpenLibraryDocToVolume) ∧
    ((OpenLibrary.transformOpenLibraryResponse response).items.getD []).length
      = response.docs.length :=
  ⟨rfl, rfl, rfl, by simp [OpenLibrary.transformOpenLibraryResponse]⟩

/-- Every value of the `Result` union is an ok-value or an error. -/
theorem resultShape_total {α : Type} (r : Result α) : resultShape r := by
  cases r with
  | ok v => exact Or.inl ⟨v, rfl⟩
  | error m => exact Or.inr ⟨m, rfl⟩

/-- No Google Books search-field keyword is the empty string (so the
JS truthiness test `if (field)` reduces to definedness). -/
theorem googleSearchField_str_ne_empty (f : GoogleBooks.SearchField) : f.str ≠ "" := by
  cases f <;> decide

/-- No Open Library search-field keyword is the empty string (so the
JS truthiness test `if (field)` reduces to definedness). -/
theorem openLibrarySearchField_str_ne_empty (f : OpenLibrary.SearchField) : f.str ≠ "" := by
  cases f <;> decide

/-- Claim C7: for every `SearchOptions` of either variant, the request
parameters are built as follows: the `q` parameter equals
`field:query` when `field` is defined and equals `query` otherwise;
`maxResults` and `startIndex` appear among the parameters if and only
if they are defined, under the names `maxResults` / `startIndex` for
Google Books and `limit` / `offset` for Open Library (a `lookup`
returning `none` is exactly absence from the URL, which is the base
URL plus the serialized parameters). -/
theorem buildApiUrl_query_params (g : GoogleBooks.SearchOptions) (o : OpenLibrary.SearchOptions) :
    (GoogleBooks.buildSearchQuery g
      = match g.field with | some f => f.str ++ ":" ++ g.query | none => g.query) ∧
    (OpenLibrary.buildSearchQuery o
      = match o.field with | some f => f.str ++ ":" ++ o.query | none => o.query) ∧
    (GoogleBooks.buildApiUrlParams g).lookup "q" = some (GoogleBooks.buildSearchQuery g) ∧
    (GoogleBooks.buildApiUrlParams g).lookup "maxResults" = g.maxResults.map toString ∧
    (GoogleBooks.buildApiUrlParams g).lookup "startIndex" = g.startIndex.map toString ∧
    (OpenLibrary.buildApiUrlParams o).lookup "q" = some (OpenLibrary.buildSearchQuery o) ∧
    (OpenLibrary.buildApiUrlParams o).lookup "limit" = o.maxResults.map toString ∧
    (OpenLibrary.buildApiUrlParams o).lookup "offset" = o.startIndex.map toString ∧
    GoogleBooks.buildApiUrl g
      = "https://www.googleapis.com/books/v1/volumes" ++ "?"
        ++ urlParamsToString (GoogleBooks.buildApiUrlParams g) ∧
    OpenLibrary.buildApiUrl o
      = "https://openlibrary.org/search.json" ++ "?"
        ++ urlParamsToString (OpenLibrary.buildApiUrlParams o) := by
  refine ⟨?_, ?_, ?_, ?_, ?_, ?_, ?_, ?_, rfl, rfl⟩
  · cases hf : g.field with
    | none => simp [GoogleBooks.buildSearchQuery, hf]
    | some f => simp [GoogleBooks.buildSearchQuery, hf, googleSearchField_str_ne_empty f]
  · cases hf : o.field with
    | none => simp [OpenLibrary.buildSearchQuery, hf]
    | some f => simp [OpenLibrary.buildSearchQuery, hf, openLibrarySearchField_str_ne_empty f]
  · cases hm : g.maxResults <;> cases hs : g.startIndex <;>
      simp only [GoogleBooks.buildApiUrlParams, hm, hs] <;> rfl
  · cases hm : g.maxResults <;> cases hs : g.startIndex <;>
      simp only [GoogleBooks.buildApiUrlParams, hm, hs] <;> rfl
  · cases hm : g.maxResults <;> cases hs : g.startIndex <;>
      simp only [GoogleBooks.buildApiUrlParams, hm, hs] <;> rfl
  · cases hm : o.maxResults <;> cases hs : o.startIndex <;>
      simp only [OpenLibrary.buildApiUrlParams, hm, hs] <;> rfl
  · cases hm : o.maxResults <;> cases hs : o.startIndex <;>
      simp only [OpenLibrary.buildApiUrlParams, hm, hs] <;> rfl
  · cases hm : o.maxResults <;> cases hs : o.startIndex <;>
      simp only [OpenLibrary.buildApiUrlParams, hm, hs] <;> rfl

/-- Claim C8: the `sort` option never influences the request URL.  For
the Open Library adapter — the variant whose `searchOptionsSchema`
declares `sort` — two options differing only in `sort` produce
identical URLs.  The Google Books variant's `searchOptionsSchema`
declares no `sort` member at all, so its URL is determined by the four
declared fields alone: two Google options agreeing on `query`,
`field`, `maxResults` and `startIndex` produce the same URL. -/
theorem sort_does_not_influence_url (o : OpenLibrary.SearchOptions)
    (s₁ s₂ : Option OpenLibrary.SearchSort) (g₁ g₂ : GoogleBooks.SearchOptions) :
    OpenLibrary.buildApiUrl { o with sort := s₁ } = OpenLibrary.buildApiUrl { o with sort := s₂ } ∧
    (g₁.query = g₂.query → g₁.field = g₂.field → g₁.maxResults = g₂.maxResults →
      g₁.startIndex = g₂.startIndex → GoogleBooks.buildApiUrl g₁ = GoogleBooks.buildApiUrl g₂) := by
  refine ⟨rfl, ?_⟩
  intro h1 h2 h3 h4
  obtain ⟨q₁, f₁, m₁, i₁⟩ := g₁
  obtain ⟨q₂, f₂, m₂, i₂⟩ := g₂
  simp only at h1 h2 h3 h4
  subst h1; subst h2; subst h3; subst h4
  rfl

/-- Witness for C8: a concrete Open Library search URL is unchanged
when `sort` flips from `relevance` to `random`, and the Google-side
conjunct's hypotheses are discharged at a concrete option record. -/
theorem sort_does_not_influence_url_witness :
    OpenLibrary.buildApiUrl
        { query := "harry potter", field := some OpenLibrary.SearchField.title,
          sort := some OpenLibrary.SearchSort.relevance, maxResults := some 20,
          startIndex := some 0 }
      = OpenLibrary.buildApiUrl
        { query := "harry potter", field := some OpenLibrary.SearchField.title,
          sort := some OpenLibrary.SearchSort.random, maxResults := some 20,
          startIndex := some 0 } ∧
    GoogleBooks.buildApiUrl { query := "harry potter", field := some GoogleBooks.SearchField.intitle }
      = GoogleBooks.buildApiUrl { query := "harry potter", field := some GoogleBooks.SearchField.intitle } :=
  ⟨(sort_does_not_influence_url
      { query := "harry potter", field := some OpenLibrary.SearchField.title,
        maxResults := some 20, startIndex := some 0 }
      (some OpenLibrary.SearchSort.relevance) (some OpenLibrary.SearchSort.random)
      { query := "harry potter", field := some GoogleBooks.SearchField.intitle }
      { query := "harry potter", field := some GoogleBooks.SearchField.intitle }).1,
    (sort_does_not_influence_url
      { query := "harry potter", field := some OpenLibrary.SearchField.title,
        maxResults := some 20, startIndex := some 0 }
      (some OpenLibrary.SearchSort.relevance) (some OpenLibrary.SearchSort.random)
      { query := "harry potter", field := some GoogleBooks.SearchField.intitle }
      { query := "harry potter", field := some GoogleBooks.SearchField.intitle }).2
      rfl rfl rfl rfl⟩

/-- Claim C2: in both adapters, a fetched body that fails schema
validation makes `searchBooks` return an error result whose message
begins with `Invalid API response:`, and for every outcome the
function produces a value of the result/error union (nothing thrown
escapes: the `try/catch` turns throws into error results). -/
theorem searchBooks_invalid_api_response
    (g : GoogleBooks.SearchOptions) (o : OpenLibrary.SearchOptions) (raw mg mol : String)
    (parseG : String → ZodParse VolumeSearchResponse)
    (parseOL : String → ZodParse OpenLibrarySearchResponse)
    (hg : parseG raw = .failure mg) (hol : parseOL raw = .failure mol) :
    GoogleBooks.searchBooks g (.body raw) parseG = .error ("Invalid API response: " ++ mg) ∧
    (∃ rest, "Invalid API response: " ++ mg = "Invalid API response:" ++ rest) ∧
    OpenLibrary.searchBooks o (.body raw) parseOL = .error ("Invalid API response: " ++ mol) ∧
    (∃ rest, "Invalid API response: " ++ mol = "Invalid API response:" ++ rest) ∧
    (∀ outcome, resultShape (GoogleBooks.searchBooks g outcome parseG)) ∧
    (∀ outcome, resultShape (OpenLibrary.searchBooks o outcome parseOL)) := by
  refine ⟨?_, ⟨" " ++ mg, rfl⟩, ?_, ⟨" " ++ mol, rfl⟩,
    fun _ => resultShape_total _, fun _ => resultShape_total _⟩
  · simp [GoogleBooks.searchBooks, hg]
  · simp [OpenLibrary.searchBooks, hol]

/-- Witness for C2: a parse function that always fails makes both
adapters return the `Invalid API response:` error on a concrete
search. -/
theorem searchBooks_invalid_api_response_witness :
    ((fun _ : String => (ZodParse.failure "validation failed" : ZodParse VolumeSearchResponse)) "{}"
        = ZodParse.failure "validation failed") ∧
    ((fun _ : String => (ZodParse.failure "validation failed" : ZodParse OpenLibrarySearchResponse)) "{}"
        = ZodParse.failure "validation failed") ∧
    (GoogleBooks.searchBooks { query := "dune" } (.body "{}")
        (fun _ => ZodParse.failure "validation failed")
      = .error ("Invalid API response: " ++ "validation failed") ∧
    (∃ rest, "Invalid API response: " ++ "validation failed" = "Invalid API response:" ++ rest) ∧
    OpenLibrary.searchBooks { query := "dune" } (.body "{}")
        (fun _ => ZodParse.failure "validation failed")
      = .error ("Invalid API response: " ++ "validation failed") ∧
    (∃ rest, "Invalid API response: " ++ "validation failed" = "Invalid API response:" ++ rest) ∧
    (∀ outcome, resultShape (GoogleBooks.searchBooks { query := "dune" } outcome
      (fun _ => ZodParse.failure "validation failed"))) ∧
    (∀ outcome, resultShape (OpenLibrary.searchBooks { query := "dune" } outcome
      (fun _ => ZodParse.failure "validation failed")))) :=
  ⟨rfl, rfl,
    searchBooks_invalid_api_response { query := "dune" } { query := "dune" } "{}"
      "validation failed" "validation failed"
      (fun _ => ZodParse.failure "validation failed")
      (fun _ => ZodParse.failure "validation failed") rfl rfl⟩

/-- Claim C5: every operation of the book service (`searchBooks`, both
adapters) and of the auth service (`getSession`, `getUser`,
`signInWithOAuth`, `signOut`) returns a value of the result/error
union for every input and every underlying outcome, and an underlying
throw is converted by the operation's `try/catch` into an error result
(using the thrown `Error`'s message, or the operation's fallback
message for non-`Error` values) rather than propagating. -/
theorem service_operations_result_union :
    (∀ (g : GoogleBooks.SearchOptions) (outcome : FetchOutcome)
        (p : String → ZodParse VolumeSearchResponse),
      resultShape (GoogleBooks.searchBooks g outcome p)) ∧
    (∀ (o : OpenLibrary.SearchOptions) (outcome : FetchOutcome)
        (p : String → ZodParse OpenLibrarySearchResponse),
      resultShape (OpenLibrary.searchBooks o outcome p)) ∧
    (∀ (α : Type) (env : AuthService.SupabaseEnv) (outcome : AuthService.AuthOutcome α),
      resultShape (AuthService.getSession env outcome)) ∧
    (∀ (α : Type) (env : AuthService.SupabaseEnv) (outcome : AuthService.AuthOutcome α),
      resultShape (AuthService.getUser env outcome)) ∧
    (∀ (α : Type) (env : AuthService.SupabaseEnv) (origin : String)
        (opts : AuthService.SignInWithOAuthOptions) (outcome : AuthService.AuthOutcome α),
      resultShape (AuthService.signInWithOAuth env origin opts outcome)) ∧
    (∀ (env : AuthService.SupabaseEnv) (outcome : AuthService.AuthOutcome Unit),
      resultShape (AuthService.signOut env outcome)) ∧
    (∀ (g : GoogleBooks.SearchOptions) (p : String → ZodParse VolumeSearchResponse) (t : JsThrown),
      GoogleBooks.searchBooks g (.throws t) p
        = .error (jsCatchMessage t "Unknown error occurred while searching books")) ∧
    (∀ (o : OpenLibrary.SearchOptions) (p : String → ZodParse OpenLibrarySearchResponse) (t : JsThrown),
      OpenLibrary.searchBooks o (.throws t) p
        = .error (jsCatchMessage t "Unknown error occurred while searching books")) ∧
    (∀ (α : Type) (env : AuthService.SupabaseEnv) (t : JsThrown),
      AuthService.getSession (α := α) env (.throws t)
        = if AuthService.envMissing env then .error "Missing Supabase environment variables"
          else .error (jsCatchMessage t "Unknown error occurred while getting session")) ∧
    (∀ (α : Type) (env : AuthService.SupabaseEnv) (t : JsThrown),
      AuthService.getUser (α := α) env (.throws t)
        = if AuthService.envMissing env then .error "Missing Supabase environment variables"
          else .error (jsCatchMessage t "Unknown error occurred while getting user")) ∧
    (∀ (α : Type) (env : AuthService.SupabaseEnv) (origin : String)
        (opts : AuthService.SignInWithOAuthOptions) (t : JsThrown),
      AuthService.signInWithOAuth (α := α) env origin opts (.throws t)
        = if AuthService.envMissing env then .error "Missing Supabase environment variables"
          else .error (jsCatchMessage t "Unknown error occurred while signing in with OAuth")) ∧
    (∀ (env : AuthService.SupabaseEnv) (t : JsThrown),
      AuthService.signOut env (.throws t)
        = if AuthService.envMissing env then .error "Missing Supabase environment variables"
          else .error (jsCatchMessage t "Unknown error occurred while signing out")) := by
  refine ⟨fun _ _ _ => resultShape_total _, fun _ _ _ => resultShape_total _,
    fun _ _ _ => resultShape_total _, fun _ _ _ => resultShape_total _,
    fun _ _ _ _ _ => resultShape_total _, fun _ _ => resultShape_total _,
    fun _ _ _ => rfl, fun _ _ _ => rfl, ?_, ?_, ?_, ?_⟩
  · intro α env t
    cases h : AuthService.envMissing env <;> simp [AuthService.getSession, h]
  · intro α env t
    cases h : AuthService.envMissing env <;> simp [AuthService.getUser, h]
  · intro α env origin opts t
    cases h : AuthService.envMissing env <;> simp [AuthService.signInWithOAuth, h]
  · intro env t
    cases h : AuthService.envMissing env <;> simp [AuthService.signOut, h]

/-- Claim C3: when the query string is empty, the `enabled` gate of
each search hook (`useBookSearch`, `useInfiniteBookSearch`,
`useInfiniteBooksByTitle`) is `false` regardless of the caller's
`enabled` option, and a disabled query issues no network request. -/
theorem empty_query_never_requests
    (enabledOption : Option Bool) (query : String) (fetchAttempts : Nat)
    (h : query.length = 0) :
    UseBookSearch.enabledGate enabledOption query = false ∧
    UseInfiniteBookSearch.enabledGate enabledOption query = false ∧
    UseInfiniteBooksByTitle.enabledGate enabledOption query = false ∧
    requestsIssued (UseBookSearch.enabledGate enabledOption query) fetchAttempts = 0 ∧
    requestsIssued (UseInfiniteBookSearch.enabledGate enabledOption query) fetchAttempts = 0 ∧
    requestsIssued (UseInfiniteBooksByTitle.enabledGate enabledOption query) fetchAttempts = 0 := by
  have h1 : UseBookSearch.enabledGate enabledOption query = false := by
    simp [UseBookSearch.enabledGate, h]
  have h2 : UseInfiniteBookSearch.enabledGate enabledOption query = false := by
    simp [UseInfiniteBookSearch.enabledGate, h]
  have h3 : UseInfiniteBooksByTitle.enabledGate enabledOption query = false := by
    simp [UseInfiniteBooksByTitle.enabledGate, h]
  exact ⟨h1, h2, h3, by simp [requestsIssued, h1], by simp [requestsIssued, h2],
    by simp [requestsIssued, h3]⟩

/-- Witness for C3: with the empty query and the `enabled` option left
`true`, all three gates are off and zero of seven fetch attempts go
out. -/
theorem empty_query_never_requests_witness :
    ("" : String).length = 0 ∧
    (UseBookSearch.enabledGate (some true) "" = false ∧
      UseInfiniteBookSearch.enabledGate (some true) "" = false ∧
      UseInfiniteBooksByTitle.enabledGate (some true) "" = false ∧
      requestsIssued (UseBookSearch.enabledGate (some true) "") 7 = 0 ∧
      requestsIssued (UseInfiniteBookSearch.enabledGate (some true) "") 7 = 0 ∧
      requestsIssued (UseInfiniteBooksByTitle.enabledGate (some true) "") 7 = 0) :=
  ⟨rfl, empty_query_never_requests (some true) "" 7 rfl⟩

/-- Unfolding the accumulated-item `reduce` of `getNextPageParam` into
a sum over the loaded pages. -/
theorem foldl_loadedItems_eq (pages : List VolumeSearchResponse) (init : Nat) :
    pages.foldl (fun acc page => acc + (page.items.getD []).length) init
      = init + (pages.map (fun page => (page.items.getD []).length)).sum := by
  induction pages generalizing init with
  | nil => simp
  | cons p t ih => rw [List.foldl_cons, ih, List.map_cons, List.sum_cons]; omega

/-- The dashboard's page flattening distributes over appending page
lists. -/
theorem allBooks_append (l₁ l₂ : List VolumeSearchResponse) :
    allBooks (l₁ ++ l₂) = allBooks l₁ ++ allBooks l₂ := by
  induction l₁ with
  | nil => simp [allBooks]
  | cons p t ih => simp [allBooks] at ih ⊢; simp [ih]

/-- Claim C1, counterexample: a next page is requested
(`getNextPageParam` returns `1` on the loaded state), yet appending the
fetched page yields a book list with a duplicate id — the accumulation
does not deduplicate (the `deduplicateBooks` helper is never applied in
the infinite-search path). -/
theorem infinite_pagination_dedup_counterexample :
    UseInfiniteBookSearch.getNextPageParam samplePage1 [samplePage1] = some 1 ∧
    ¬ ((allBooks (fetchNextPageAppend [samplePage1] samplePageDup)).map Volume.id).Nodup :=
  ⟨by decide, by decide⟩

/-- Claim C1, amended: requesting the next page appends the fetched
page's items as they are (no deduplication), and no further page is
requested exactly once the accumulated item count across all loaded
pages reaches the last page's `totalItems`: `getNextPageParam` (of
`useInfiniteBookSearch` and of `useInfiniteBooksByTitle`) returns
`undefined` precisely when the accumulated count is `>= totalItems`,
and otherwise returns the accumulated count as the next start index. -/
theorem infinite_pagination_amended
    (lastPage : VolumeSearchResponse) (allPages pages : List VolumeSearchResponse)
    (newPage : VolumeSearchResponse) :
    (UseInfiniteBookSearch.getNextPageParam lastPage allPages = none ↔
      lastPage.totalItems ≤ (allPages.map (fun page => (page.items.getD []).length)).sum) ∧
    (UseInfiniteBooksByTitle.getNextPageParam lastPage allPages = none ↔
      lastPage.totalItems ≤ (allPages.map (fun page => (page.items.getD []).length)).sum) ∧
    (UseInfiniteBookSearch.getNextPageParam lastPage allPages
      = UseInfiniteBooksByTitle.getNextPageParam lastPage allPages) ∧
    (∀ k, UseInfiniteBookSearch.getNextPageParam lastPage allPages = some k →
      k = (allPages.map (fun page => (page.items.getD []).length)).sum) ∧
    allBooks (fetchNextPageAppend pages newPage) = allBooks pages ++ newPage.items.getD [] := by
  have e1 : UseInfiniteBookSearch.getNextPageParam lastPage allPages
      = if (allPages.map (fun page => (page.items.getD []).length)).sum < lastPage.totalItems
        then some ((allPages.map (fun page => (page.items.getD []).length)).sum)
        else none := by
    simp [UseInfiniteBookSearch.getNextPageParam, foldl_loadedItems_eq]
  have e2 : UseInfiniteBooksByTitle.getNextPageParam lastPage allPages
      = if (allPages.map (fun page => (page.items.getD []).length)).sum < lastPage.totalItems
        then some ((allPages.map (fun page => (page.items.getD []).length)).sum)
        else none := by
    simp [UseInfiniteBooksByTitle.getNextPageParam, foldl_loadedItems_eq]
  refine ⟨?_, ?_, by rw [e1, e2], ?_, ?_⟩
  · rw [e1]
    by_cases hlt : (allPages.map (fun page => (page.items.getD []).length)).sum
        < lastPage.totalItems <;> simp [hlt] <;> omega
  · rw [e2]
    by_cases hlt : (allPages.map (fun page => (page.items.getD []).length)).sum
        < lastPage.totalItems <;> simp [hlt] <;> omega
  · intro k hk
    rw [e1] at hk
    by_cases hlt : (allPages.map (fun page => (page.items.getD []).length)).sum
        < lastPage.totalItems <;> simp [hlt] at hk
    omega
  · show allBooks (pages ++ [newPage]) = allBooks pages ++ newPage.items.getD []
    rw [allBooks_append]
    simp [allBooks]

/-- Witness for Claim C1 (amended): on the concrete loaded state, the
hypothesis-bearing conjunct yields the accumulated count `1` as the
next start index. -/
theorem infinite_pagination_amended_witness :
    UseInfiniteBookSearch.getNextPageParam samplePage1 [samplePage1] = some 1 ∧
    (1 : Nat) = ([samplePage1].map (fun page => (page.items.getD []).length)).sum :=
  ⟨by decide,
    (infinite_pagination_amended samplePage1 [samplePage1] [] samplePage1).2.2.2.1 1 (by decide)⟩

end MyLibraryApp
